import Mathlib

/-!
Verification development for the `sobarine21/gridv3` Streamlit app
(`src/streamlit_app.py`).

The reusable logic of the app is the per-session rate limiter
(`check_session_limit`), the random model/key rotator
(`get_next_model_and_key`), the generate-button flow inside `main`, and
the asterisk-stripping in `text_to_audio`.  We embed those shallowly:

* Streamlit session state (`session_count`, `block_time`, `user_hash`,
  `generated_text`) becomes the `Session` structure.
* Timestamps (`time.time()` floats) are modelled as rationals; `int(x)`
  applied to a positive rational is `Int.floor`.
* UI and I/O calls (`st.warning`, `st.markdown`, `st.stop`,
  `st.experimental_set_query_params`, the outbound generation and search
  calls) become an explicit `Effect` trace.
* The outcome of the external Generative AI call is the `GenOutcome`
  parameter of the embedded `generate_content_async`.
* `random.choice` is modelled by `random_choice`, taking the uniform
  draw of the CPython `_randbelow` helper as an explicit natural number; the
  empty-sequence `IndexError` becomes `none`.
-/

namespace GridV3

/-- Streamlit session state initialised by `initialize_session`. -/
structure Session where
  session_count : Nat
  block_time : Option ℚ
  user_hash : String
  generated_text : String
deriving DecidableEq

/-- Observable effects of one script run: UI messages, query-parameter
writes, `st.stop`, and outbound external-service calls. -/
inductive Effect where
  /-- cooldown warning, carrying the computed remaining whole seconds -/
  | warn_cooldown (secs : Int)
  /-- threshold warning with the fixed message: wait 1 minute or upgrade -/
  | warn_threshold
  /-- the `st.markdown` upgrade link shown with the threshold warning -/
  | upsell
  /-- write of the user hash and deadline into the URL query parameters -/
  | set_query_params (hash : String) (bt : ℚ)
  /-- halt of the script run, via the stop primitive of the UI framework -/
  | stop
  /-- warning that the prompt is empty after validation -/
  | warn_invalid_prompt
  /-- the outbound call to the Generative AI service -/
  | gen_call (prompt : String)
  /-- rendering of the generated text to the user -/
  | display (text : String)
  /-- the outbound call to the Google Custom Search service -/
  | search_call (query : String)
deriving DecidableEq

/-- Whether `check_session_limit` fell through (permit) or stopped the
script via one of its two denial branches. -/
inductive LimitResult where
  | denied (secs : Int)
  | deniedThreshold
  | permitted
deriving DecidableEq

/-- Result of running `check_session_limit`: the conceptual
permit/deny outcome, the updated session state, and the effect trace. -/
structure CheckOut where
  result : LimitResult
  state : Session
  effects : List Effect
deriving DecidableEq

/-- Second half of `check_session_limit` (lines 82-87): the
`session_count >= 2` threshold test, which on denial sets
`block_time = current_time + 1 * 60` and stops the script. -/
def checkThreshold (s : Session) (now : ℚ) : CheckOut :=
  if s.session_count ≥ 2 then
    { result := .deniedThreshold
      state := { s with block_time := some (now + 1 * 60) }
      effects := [.warn_threshold, .upsell,
                  .set_query_params s.user_hash (now + 1 * 60), .stop] }
  else
    { result := .permitted, state := s, effects := [] }

/-- Embedding of `check_session_limit` (lines 71-87).  The test on `block_time`
is Python truthiness: `None` and `0.0` are falsy, hence the `bt ≠ 0` test
on a set deadline.  `int(time_left)` truncates toward zero; in the branch
where it is used, `time_left > 0`, so it equals `Int.floor`. -/
def check_session_limit (s : Session) (now : ℚ) : CheckOut :=
  match s.block_time with
  | some bt =>
    if bt ≠ 0 then
      if bt - now > 0 then
        { result := .denied ⌊bt - now⌋
          state := s
          effects := [.warn_cooldown ⌊bt - now⌋, .stop] }
      else
        checkThreshold { s with block_time := none } now
    else
      checkThreshold s now
  | none => checkThreshold s now

/-- Python `str.strip()`: drop leading and trailing whitespace. -/
def pyStrip (s : String) : String :=
  ⟨((s.data.dropWhile Char.isWhitespace).reverse.dropWhile
      Char.isWhitespace).reverse⟩

/-- Outcome of `generative_model.generate_content`: a truthy response
with truthy text, a falsy response or falsy text, or a raised exception
with message `msg`. -/
inductive GenOutcome where
  | ok (text : String)
  | emptyResp
  | exc (msg : String)
deriving DecidableEq

/-- The string `generate_content_async` (lines 25-38) returns to its
caller for each outcome of the external call. -/
def generate_content_async (o : GenOutcome) : String :=
  match o with
  | .ok t => pyStrip t
  | .emptyResp => "No valid response generated."
  | .exc m => "Error generating content: " ++ m

/-- Result of one generate-button script run. -/
structure RunOut where
  state : Session
  effects : List Effect
deriving DecidableEq

/-- One script run with the Generate Response button pressed
(line 232 and `main`, lines 236-264): `check_session_limit` runs first
(module level); if it falls through, an all-whitespace prompt is
rejected with a warning; otherwise the generation call is made, the
session counter is incremented, the returned text is stored and
displayed, and the web search is invoked on it. -/
def runGenerate (s : Session) (now : ℚ) (prompt : String) (o : GenOutcome) :
    RunOut :=
  let c := check_session_limit s now
  if c.result = .permitted then
    if pyStrip prompt = "" then
      { state := c.state, effects := c.effects ++ [.warn_invalid_prompt] }
    else
      let generated_text := generate_content_async o
      { state := { c.state with
                    session_count := c.state.session_count + 1
                    generated_text := generated_text }
        effects := c.effects ++
          [.gen_call prompt, .display generated_text,
           .search_call generated_text] }
  else
    { state := c.state, effects := c.effects }

/-- Embedding of `initialize_session` (lines 60-69). -/
def initSession (hash : String) : Session :=
  { session_count := 0, block_time := none
    user_hash := hash, generated_text := "" }

/-- Inputs of one script run: the clock reading, the prompt text, and
the external generation outcome. -/
structure StepInput where
  now : ℚ
  prompt : String
  outcome : GenOutcome

/-- A whole interaction: a fresh session followed by any sequence of
generate-button runs. -/
def runAll (hash : String) (steps : List StepInput) : Session :=
  steps.foldl (fun s i => (runGenerate s i.now i.prompt i.outcome).state)
    (initSession hash)

/-- The hard-coded configuration list of `get_next_model_and_key`
(lines 15-20); `secrets` is the `st.secrets` store. -/
def models_and_keys (secrets : String → String) : List (String × String) :=
  [("gemini-1.5-flash", secrets ("API_KEY_GEMINI_1_5_FLASH")),
   ("gemini-2.0-flash", secrets ("API_KEY_GEMINI_2_0_FLASH")),
   ("gemini-1.5-flash-8b", secrets ("API_KEY_GEMINI_1_5_FLASH_8B")),
   ("gemini-2.0-flash-exp", secrets ("API_KEY_GEMINI_2_0_FLASH_EXP"))]

/-- Python `random.choice(seq)`: returns `seq[_randbelow(len(seq))]`,
raising `IndexError` on an empty sequence.  `r` is the uniform draw
consumed from the generator; `none` models the raised error. -/
def random_choice {α : Type} (l : List α) (r : ℕ) : Option α :=
  if h : l.length = 0 then none
  else some (l.get ⟨r % l.length, Nat.mod_lt r (Nat.pos_of_ne_zero h)⟩)

/-- Embedding of `get_next_model_and_key` (lines 13-23): `random.choice` over the
configured pairs, with `r` the uniform randomness draw. -/
def get_next_model_and_key (secrets : String → String) (r : ℕ) :
    Option (String × String) :=
  random_choice (models_and_keys secrets) r

/-- The selection made by the `n`-th invocation of the rotator, when
`draws` is the stream of uniform draws produced by the randomness
source: each call consumes exactly one fresh draw and consults nothing
else. -/
def nth_selection (secrets : String → String) (draws : ℕ → ℕ) (n : ℕ) :
    Option (String × String) :=
  get_next_model_and_key secrets (draws n)

/-- Python `str.replace` specialised to a single-character pattern:
scan left to right, substituting `repl` for every occurrence of `c`. -/
def pyReplaceChar (c : Char) (repl : List Char) : List Char → List Char
  | [] => []
  | x :: xs =>
    if x = c then repl ++ pyReplaceChar c repl xs
    else x :: pyReplaceChar c repl xs

/-- The text `text_to_audio` (lines 132-139) hands to the gTTS engine:
`text.replace("*", "")`. -/
def text_to_audio_tts_input (text : String) : String :=
  ⟨pyReplaceChar (Char.ofNat 42) [] text.data⟩

/-- Modelled from the wording of the spec claim, for comparison with
`text_to_audio_tts_input`: the input with every asterisk deleted and
otherwise unchanged. -/
def removeAsterisksSpec (text : String) : String :=
  ⟨text.data.filter (fun ch => ch ≠ Char.ofNat 42)⟩

/-! ### Helper lemmas about the rate limiter -/

theorem checkThreshold_cases (s : Session) (now : ℚ) :
    (s.session_count < 2 ∧ checkThreshold s now = ⟨.permitted, s, []⟩) ∨
    (2 ≤ s.session_count ∧ checkThreshold s now =
      ⟨.deniedThreshold, { s with block_time := some (now + 1 * 60) },
       [.warn_threshold, .upsell,
        .set_query_params s.user_hash (now + 1 * 60), .stop]⟩) := by
  unfold checkThreshold
  split_ifs with h
  · exact Or.inr ⟨h, rfl⟩
  · exact Or.inl ⟨by omega, rfl⟩

theorem check_session_limit_cases (s : Session) (now : ℚ) :
    check_session_limit s now = checkThreshold s now ∨
    check_session_limit s now = checkThreshold { s with block_time := none } now ∨
    (∃ bt, s.block_time = some bt ∧ 0 < bt - now ∧
      check_session_limit s now =
        ⟨.denied ⌊bt - now⌋, s, [.warn_cooldown ⌊bt - now⌋, .stop]⟩) := by
  rcases hb : s.block_time with _ | bt
  · left
    unfold check_session_limit
    rw [hb]
  · unfold check_session_limit
    rw [hb]
    dsimp only
    split_ifs with h0 hpos
    · exact Or.inr (Or.inr ⟨bt, rfl, hpos, rfl⟩)
    · exact Or.inr (Or.inl rfl)
    · left
      rfl

theorem checkThreshold_frame (s : Session) (now : ℚ) :
    (checkThreshold s now).state.session_count = s.session_count ∧
    (checkThreshold s now).state.user_hash = s.user_hash ∧
    (checkThreshold s now).state.generated_text = s.generated_text := by
  unfold checkThreshold
  split_ifs <;> exact ⟨rfl, rfl, rfl⟩

theorem check_session_limit_frame (s : Session) (now : ℚ) :
    (check_session_limit s now).state.session_count = s.session_count ∧
    (check_session_limit s now).state.user_hash = s.user_hash ∧
    (check_session_limit s now).state.generated_text = s.generated_text := by
  rcases check_session_limit_cases s now with h | h | ⟨bt, _, _, h⟩ <;> rw [h]
  · exact checkThreshold_frame s now
  · exact checkThreshold_frame { s with block_time := none } now
  · exact ⟨rfl, rfl, rfl⟩

theorem check_session_limit_permitted (s : Session) (now : ℚ)
    (h : (check_session_limit s now).result = .permitted) :
    s.session_count < 2 ∧ (check_session_limit s now).effects = [] := by
  rcases check_session_limit_cases s now with hc | hc | ⟨bt, _, _, hc⟩
  · rcases checkThreshold_cases s now with ⟨hlt, he⟩ | ⟨_, he⟩
    · rw [hc, he]
      exact ⟨hlt, rfl⟩
    · rw [hc, he] at h
      simp at h
  · rcases checkThreshold_cases { s with block_time := none } now with
      ⟨hlt, he⟩ | ⟨_, he⟩
    · rw [hc, he]
      exact ⟨hlt, rfl⟩
    · rw [hc, he] at h
      simp at h
  · rw [hc] at h
    simp at h

theorem check_session_limit_effects_cases (s : Session) (now : ℚ) :
    (check_session_limit s now).effects = [] ∨
    (∃ n, (check_session_limit s now).effects =
      [.warn_cooldown n, .stop]) ∨
    (check_session_limit s now).effects =
      [.warn_threshold, .upsell,
       .set_query_params s.user_hash (now + 1 * 60), .stop] := by
  rcases check_session_limit_cases s now with hc | hc | ⟨bt, _, _, hc⟩
  · rcases checkThreshold_cases s now with ⟨_, he⟩ | ⟨_, he⟩ <;> rw [hc, he]
    · exact Or.inl rfl
    · exact Or.inr (Or.inr rfl)
  · rcases checkThreshold_cases { s with block_time := none } now with
      ⟨_, he⟩ | ⟨_, he⟩ <;> rw [hc, he]
    · exact Or.inl rfl
    · exact Or.inr (Or.inr rfl)
  · rw [hc]
    exact Or.inr (Or.inl ⟨⌊bt - now⌋, rfl⟩)

theorem check_session_limit_stop_iff (s : Session) (now : ℚ) :
    (check_session_limit s now).result ≠ .permitted ↔
      Effect.stop ∈ (check_session_limit s now).effects := by
  rcases check_session_limit_cases s now with hc | hc | ⟨bt, _, _, hc⟩
  · rcases checkThreshold_cases s now with ⟨_, he⟩ | ⟨_, he⟩ <;>
      rw [hc, he] <;> simp
  · rcases checkThreshold_cases { s with block_time := none } now with
      ⟨_, he⟩ | ⟨_, he⟩ <;> rw [hc, he] <;> simp
  · rw [hc]
    simp

theorem runGenerate_count_le (s : Session) (now : ℚ) (prompt : String)
    (o : GenOutcome) (h : s.session_count ≤ 2) :
    (runGenerate s now prompt o).state.session_count ≤ 2 := by
  have hframe := (check_session_limit_frame s now).1
  unfold runGenerate
  dsimp only
  split_ifs with hperm hempty
  · dsimp only
    omega
  · have hlt := (check_session_limit_permitted s now hperm).1
    dsimp only
    omega
  · dsimp only
    omega

theorem foldl_runGenerate_count_le (steps : List StepInput) (s : Session)
    (h : s.session_count ≤ 2) :
    (steps.foldl (fun s i => (runGenerate s i.now i.prompt i.outcome).state)
      s).session_count ≤ 2 := by
  induction steps generalizing s with
  | nil => simpa using h
  | cons i rest ih =>
    exact ih _ (runGenerate_count_le s i.now i.prompt i.outcome h)

/-! ### Helper lemmas about the rotator and the TTS input -/

theorem rotator_sel_zero (secrets : String → String) :
    get_next_model_and_key secrets 0 =
      some ("gemini-1.5-flash", secrets ("API_KEY_GEMINI_1_5_FLASH")) := rfl

theorem rotator_sel_one (secrets : String → String) :
    get_next_model_and_key secrets 1 =
      some ("gemini-2.0-flash", secrets ("API_KEY_GEMINI_2_0_FLASH")) := rfl

theorem rotator_sel_two (secrets : String → String) :
    get_next_model_and_key secrets 2 =
      some ("gemini-1.5-flash-8b",
        secrets ("API_KEY_GEMINI_1_5_FLASH_8B")) := rfl

theorem rotator_sel_three (secrets : String → String) :
    get_next_model_and_key secrets 3 =
      some ("gemini-2.0-flash-exp",
        secrets ("API_KEY_GEMINI_2_0_FLASH_EXP")) := rfl

theorem pyReplaceChar_nil_eq_filter (c : Char) (l : List Char) :
    pyReplaceChar c [] l = l.filter (fun ch => ch ≠ c) := by
  induction l with
  | nil => rfl
  | cons x xs ih =>
    unfold pyReplaceChar
    by_cases hx : x = c
    · rw [if_pos hx]
      simp [List.filter_cons, hx, ih]
    · rw [if_neg hx]
      simp [List.filter_cons, hx, ih]

/-! ### Claim theorems -/

/-- Claim C1: the claim says the first gated action attempted strictly after
`block_time` elapses is permitted and resets `session_count`.  The code
never resets `session_count` anywhere: at `session_count = 2` with an
expired deadline (`block_time = 100`, attempt at `161`), the check
clears the deadline but the threshold test `session_count >= 2`
immediately denies again, sets a fresh deadline `221 = 161 + 60`, and
leaves the counter at `2` — contradicting both the claim and the
message of the code itself, Try again in N seconds. -/
theorem c1_attempt_after_deadline_still_denied :
    runGenerate ⟨2, some 100, "h", ""⟩ 161 ("hello") (.ok ("hi")) =
      ⟨⟨2, some 221, "h", ""⟩,
       [Effect.warn_threshold, Effect.upsell,
        Effect.set_query_params ("h") 221, Effect.stop]⟩ := by
  norm_num [runGenerate, check_session_limit, checkThreshold]
  rintro ⟨⟩

/-- Claim C2: whenever `block_time` is set (truthy) but already passed, the
check clears it to `None` first and only then evaluates the
`session_count` threshold, at the same clock reading — lazy expiry at
the next check. -/
theorem c2_lazy_expiry_clears_deadline (s : Session) (now bt : ℚ)
    (hb : s.block_time = some bt) (h0 : bt ≠ 0) (hpassed : bt < now) :
    check_session_limit s now =
      checkThreshold { s with block_time := none } now := by
  unfold check_session_limit
  rw [hb]
  dsimp only
  rw [if_pos h0, if_neg (by linarith : ¬bt - now > 0)]

theorem c2_witness :
    check_session_limit ⟨2, some 10, "h", ""⟩ 20 =
      checkThreshold ⟨2, none, "h", ""⟩ 20 :=
  c2_lazy_expiry_clears_deadline ⟨2, some 10, "h", ""⟩ 20 10 rfl (by decide)
    (by decide)

/-- Claim C3: over any sequence of gated actions from a fresh session,
`session_count` never exceeds the threshold 2: the check denies (does
not fall through) whenever `session_count >= 2`, so the increment at
generation time can only raise the counter to at most 2. -/
theorem c3_session_count_le_two (hash : String) (steps : List StepInput) :
    (runAll hash steps).session_count ≤ 2 ∧
    ∀ (s : Session) (now : ℚ), 2 ≤ s.session_count →
      (check_session_limit s now).result ≠ .permitted := by
  constructor
  · exact foldl_runGenerate_count_le steps (initSession hash) (Nat.zero_le 2)
  · intro s now hge hperm
    exact absurd (check_session_limit_permitted s now hperm).1 (by omega)

theorem c3_witness :
    (runAll ("h") [⟨0, ("p"), .ok ("t")⟩]).session_count ≤ 2 ∧
    (check_session_limit ⟨2, none, "h", ""⟩ 0).result ≠ .permitted :=
  ⟨(c3_session_count_le_two ("h") [⟨0, ("p"), .ok ("t")⟩]).1,
   (c3_session_count_le_two ("h") []).2 ⟨2, none, "h", ""⟩ 0 (by decide)⟩

/-- Claim C4 counterexample: the claim says the check has no side effects
beyond the counters of the session itself and only returns a permit/deny
decision while the caller skips the action.  At `session_count = 2`
the check itself writes the URL query parameters
(`st.experimental_set_query_params`) and halts the script run
(`st.stop`) — effects beyond the counters of the session, enforcing the
denial inside the check instead of returning it. -/
theorem c4_counterexample :
    Effect.set_query_params ("h") 60 ∈
      (check_session_limit ⟨2, none, "h", ""⟩ 0).effects ∧
    Effect.stop ∈ (check_session_limit ⟨2, none, "h", ""⟩ 0).effects := by
  norm_num [check_session_limit, checkThreshold]

/-- Claim C4 as amended: among the session fields the check mutates only
`block_time` (`session_count`, `user_hash`, `generated_text` are
untouched), and it never performs the gated action itself (it issues no
generation or search call); but denial is enforced inside the check: a
run is denied exactly when the effect trace of the check halts the script
with `st.stop` (after user-visible warnings, and on the threshold
branch a query-parameter write). -/
theorem c4_check_mutates_only_deadline (s : Session) (now : ℚ) :
    ((check_session_limit s now).state.session_count = s.session_count ∧
     (check_session_limit s now).state.user_hash = s.user_hash ∧
     (check_session_limit s now).state.generated_text = s.generated_text) ∧
    (∀ p, Effect.gen_call p ∉ (check_session_limit s now).effects) ∧
    (∀ q, Effect.search_call q ∉ (check_session_limit s now).effects) ∧
    ((check_session_limit s now).result ≠ .permitted ↔
      Effect.stop ∈ (check_session_limit s now).effects) := by
  refine ⟨check_session_limit_frame s now, ?_, ?_,
    check_session_limit_stop_iff s now⟩
  · intro p
    rcases check_session_limit_effects_cases s now with he | ⟨n, he⟩ | he <;>
      rw [he] <;> simp
  · intro q
    rcases check_session_limit_effects_cases s now with he | ⟨n, he⟩ | he <;>
      rw [he] <;> simp

theorem c4_witness :
    Effect.stop ∈ (check_session_limit ⟨2, none, "h", ""⟩ 5).effects :=
  (c4_check_mutates_only_deadline ⟨2, none, "h", ""⟩ 5).2.2.2.mp (by decide)

/-- Claim C5 counterexample: the claim says the output of every denied gated action
includes the remaining wait time in whole seconds (deadline minus
current time).  A threshold denial (`session_count = 2`, no deadline
set yet) emits only the fixed wait-one-minute warning, the
upsell, a query-parameter write and the stop — its full effect trace,
shown here, carries no computed seconds value. -/
theorem c5_counterexample :
    (check_session_limit ⟨2, none, "h", ""⟩ 100).result =
      .deniedThreshold ∧
    (check_session_limit ⟨2, none, "h", ""⟩ 100).effects =
      [Effect.warn_threshold, Effect.upsell,
       Effect.set_query_params ("h") 160, Effect.stop] := by
  norm_num [check_session_limit, checkThreshold]

/-- Claim C5 as amended: every gated action denied because an unexpired
cooldown deadline is set is reported with the remaining wait time in
whole seconds, `int(block_time - current_time)` (truncation = floor
here since the difference is positive); a denial that trips the
threshold instead shows a fixed one-minute message. -/
theorem c5_cooldown_denial_reports_whole_seconds (s : Session)
    (now bt : ℚ) (hb : s.block_time = some bt) (h0 : bt ≠ 0)
    (hfuture : now < bt) :
    (check_session_limit s now).result = .denied ⌊bt - now⌋ ∧
    Effect.warn_cooldown ⌊bt - now⌋ ∈
      (check_session_limit s now).effects := by
  unfold check_session_limit
  rw [hb]
  dsimp only
  rw [if_pos h0, if_pos (by linarith : bt - now > 0)]
  exact ⟨rfl, by simp⟩

theorem c5_witness :
    (check_session_limit ⟨0, some 100, "h", ""⟩ 40).result =
      .denied ⌊(100 : ℚ) - 40⌋ ∧
    Effect.warn_cooldown ⌊(100 : ℚ) - 40⌋ ∈
      (check_session_limit ⟨0, some 100, "h", ""⟩ 40).effects :=
  c5_cooldown_denial_reports_whole_seconds ⟨0, some 100, "h", ""⟩ 40 100 rfl
    (by decide) (by decide)

/-- Claim C6: the rotator is memoryless — the `n`-th selection depends only on
the `n`-th uniform draw of the randomness source, not on any earlier
selection — and uniform: for each configured pair, exactly 1 of the 4
equiprobable draw residues selects it, so every pair is chosen with
probability 1/4. -/
theorem c6_rotator_memoryless_uniform (secrets : String → String)
    (d1 d2 : ℕ → ℕ) (n : ℕ) (p : String × String)
    (hd : d1 n = d2 n) (hp : p ∈ models_and_keys secrets) :
    nth_selection secrets d1 n = nth_selection secrets d2 n ∧
    (Finset.filter
      (fun r : Fin 4 => get_next_model_and_key secrets r.val = some p)
      Finset.univ).card = 1 := by
  refine ⟨by unfold nth_selection; rw [hd], ?_⟩
  rw [Finset.card_eq_one]
  simp only [models_and_keys, List.mem_cons, List.not_mem_nil,
    or_false] at hp
  rcases hp with rfl | rfl | rfl | rfl
  · refine ⟨⟨0, by omega⟩, ?_⟩
    ext r
    simp only [Finset.mem_filter, Finset.mem_univ, true_and,
      Finset.mem_singleton]
    fin_cases r <;>
      simp [rotator_sel_zero, rotator_sel_one, rotator_sel_two,
        rotator_sel_three, Prod.mk.injEq]
  · refine ⟨⟨1, by omega⟩, ?_⟩
    ext r
    simp only [Finset.mem_filter, Finset.mem_univ, true_and,
      Finset.mem_singleton]
    fin_cases r <;>
      simp [rotator_sel_zero, rotator_sel_one, rotator_sel_two,
        rotator_sel_three, Prod.mk.injEq]
  · refine ⟨⟨2, by omega⟩, ?_⟩
    ext r
    simp only [Finset.mem_filter, Finset.mem_univ, true_and,
      Finset.mem_singleton]
    fin_cases r <;>
      simp [rotator_sel_zero, rotator_sel_one, rotator_sel_two,
        rotator_sel_three, Prod.mk.injEq]
  · refine ⟨⟨3, by omega⟩, ?_⟩
    ext r
    simp only [Finset.mem_filter, Finset.mem_univ, true_and,
      Finset.mem_singleton]
    fin_cases r <;>
      simp [rotator_sel_zero, rotator_sel_one, rotator_sel_two,
        rotator_sel_three, Prod.mk.injEq]

theorem c6_witness :
    nth_selection (fun _ => "k") (fun _ => 0) 0 =
      nth_selection (fun _ => "k") (fun _ => 0) 0 ∧
    (Finset.filter
      (fun r : Fin 4 => get_next_model_and_key (fun _ => "k") r.val =
        some ("gemini-1.5-flash", "k"))
      Finset.univ).card = 1 :=
  c6_rotator_memoryless_uniform (fun _ => "k") (fun _ => 0) (fun _ => 0) 0
    ("gemini-1.5-flash", "k") rfl (by simp [models_and_keys])

/-- Claim C7: `random.choice` on an empty configured list yields no pair at
all (the raised `IndexError`, modelled as `none`), so no outbound call
can be attempted with undefined credentials; with the actual non-empty
configuration the rotator always returns one of the configured pairs. -/
theorem c7_empty_config_fails_fast (r : ℕ) :
    random_choice ([] : List (String × String)) r = none ∧
    ∀ (secrets : String → String), ∃ p,
      get_next_model_and_key secrets r = some p ∧
      p ∈ models_and_keys secrets := by
  refine ⟨rfl, ?_⟩
  intro secrets
  refine ⟨(models_and_keys secrets).get
    ⟨r % 4, Nat.mod_lt r (by omega)⟩, rfl, List.get_mem _ _ _⟩

/-- Claim C8: a prompt that is all whitespace (empty after `strip()`) is
rejected when the check permits the run: only the invalid-prompt warning
is emitted — no generation or search call is issued —
and `session_count` and `generated_text` are unchanged. -/
theorem c8_empty_prompt_rejected (s : Session) (now : ℚ) (prompt : String)
    (o : GenOutcome)
    (hperm : (check_session_limit s now).result = .permitted)
    (hempty : pyStrip prompt = "") :
    (runGenerate s now prompt o).state.session_count = s.session_count ∧
    (runGenerate s now prompt o).state.generated_text =
      s.generated_text ∧
    (runGenerate s now prompt o).effects =
      [Effect.warn_invalid_prompt] := by
  have hframe := check_session_limit_frame s now
  have heff := (check_session_limit_permitted s now hperm).2
  unfold runGenerate
  dsimp only
  rw [if_pos hperm, if_pos hempty]
  exact ⟨hframe.1, hframe.2.2, by rw [heff]; rfl⟩

theorem c8_witness :
    (runGenerate ⟨0, none, "h", ""⟩ 0 ("  ")
      (.ok ("t"))).state.session_count = 0 ∧
    (runGenerate ⟨0, none, "h", ""⟩ 0 ("  ")
      (.ok ("t"))).state.generated_text = "" ∧
    (runGenerate ⟨0, none, "h", ""⟩ 0 ("  ") (.ok ("t"))).effects =
      [Effect.warn_invalid_prompt] :=
  c8_empty_prompt_rejected ⟨0, none, "h", ""⟩ 0 ("  ") (.ok ("t"))
    (by decide) (by decide)

/-- Claim C9 counterexample: the claim says a failed generation aborts the
gated action — no storing of a result, no counting, no follow-on
processing of the error message as content.  When the external call
raises (outcome exc boom), the run instead increments
`session_count` to 1, stores the error text Error generating content: boom as
`generated_text`, and submits that error string to the web search. -/
theorem c9_counterexample :
    (runGenerate ⟨0, none, "h", ""⟩ 100 ("hello")
      (.exc ("boom"))).state.session_count = 1 ∧
    (runGenerate ⟨0, none, "h", ""⟩ 100 ("hello")
      (.exc ("boom"))).state.generated_text =
      "Error generating content: boom" ∧
    Effect.search_call ("Error generating content: boom") ∈
      (runGenerate ⟨0, none, "h", ""⟩ 100 ("hello")
        (.exc ("boom"))).effects := by
  refine ⟨?_, ?_, ?_⟩ <;> decide

/-- Claim C9 as amended: an external-call failure is surfaced immediately and
without retry — exactly one generation call is made and the error
message is displayed to the user — but the gated action then proceeds
as if it had succeeded: `session_count` is incremented, the error
string is stored as `generated_text`, and it is passed to the web
search as content. -/
theorem c9_failure_surfaced_but_action_proceeds (s : Session) (now : ℚ)
    (prompt msg : String)
    (hperm : (check_session_limit s now).result = .permitted)
    (hprompt : pyStrip prompt ≠ "") :
    (runGenerate s now prompt (.exc msg)).state.session_count =
      s.session_count + 1 ∧
    (runGenerate s now prompt (.exc msg)).state.generated_text =
      "Error generating content: " ++ msg ∧
    (runGenerate s now prompt (.exc msg)).effects =
      [Effect.gen_call prompt,
       Effect.display ("Error generating content: " ++ msg),
       Effect.search_call ("Error generating content: " ++ msg)] := by
  have hframe := check_session_limit_frame s now
  have heff := (check_session_limit_permitted s now hperm).2
  unfold runGenerate
  dsimp only
  rw [if_pos hperm, if_neg hprompt]
  refine ⟨?_, rfl, by rw [heff]; rfl⟩
  dsimp only
  rw [hframe.1]

theorem c9_witness :
    (runGenerate ⟨0, none, "h", ""⟩ 3 ("hi")
      (.exc ("oops"))).state.session_count = 0 + 1 ∧
    (runGenerate ⟨0, none, "h", ""⟩ 3 ("hi")
      (.exc ("oops"))).state.generated_text =
      "Error generating content: " ++ "oops" ∧
    (runGenerate ⟨0, none, "h", ""⟩ 3 ("hi") (.exc ("oops"))).effects =
      [Effect.gen_call ("hi"),
       Effect.display ("Error generating content: " ++ "oops"),
       Effect.search_call ("Error generating content: " ++ "oops")] :=
  c9_failure_surfaced_but_action_proceeds ⟨0, none, "h", ""⟩ 3 ("hi")
    ("oops") (by decide) (by decide)

/-- Claim C10: the text `text_to_audio` hands to the text-to-speech engine is
the input with every asterisk (`replace("*", "")`) deleted and
otherwise unchanged. -/
theorem c10_tts_input_removes_asterisks (text : String) :
    text_to_audio_tts_input text = removeAsterisksSpec text := by
  unfold text_to_audio_tts_input removeAsterisksSpec
  rw [pyReplaceChar_nil_eq_filter]

end GridV3
